import Mathlib

/-!
Shallow embedding of `src/packages/backend/src/core/NoteProhibitService.ts`:
the `NoteProhibitService` class, consisting of the gate `isProhibitedNote`
and the recursive formula evaluator `evalcond`, together with the data
shapes they consume.  Collaborator calls that may raise are modelled as
`Except Unit`-valued functions carried in an environment record; a raised
JavaScript exception is an `Except.error`.
-/

/-- A note referenced by the subject (`reply` target or `renote` target).
Only its presence or absence is ever inspected by the evaluator. -/
structure MiNote where
  id : String
deriving DecidableEq, Repr

/-- A file attached to the subject; the fields of `MiDriveFile` read by the
evaluator: `size`, `md5`, `type` (MIME type) and the optional `blurhash`
perceptual-hash string. -/
structure MiDriveFile where
  size : Int
  md5 : String
  type : String
  blurhash : Option String
deriving DecidableEq, Repr

/-- The author's user record; the fields of `MiUser` read by the evaluator:
the handle `username` and the nullable display name `name`. -/
structure MiUser where
  username : String
  name : Option String
deriving DecidableEq, Repr

/-- A role object; only its `id` is ever inspected. -/
structure MiRole where
  id : String
deriving DecidableEq, Repr

/-- One element of the subject's mention list. -/
structure Mention where
  username : String
  host : Option String
deriving DecidableEq, Repr

/-- The `InspectionSubject` record from the source: the content under
inspection. -/
structure InspectionSubject where
  userId : String
  text : Option String
  reply : Option MiNote
  renote : Option MiNote
  files : Option (List MiDriveFile)
  mentions : List Mention
  hashtags : List String
deriving DecidableEq, Repr

/-- The formula node type `ProhibitedNoteFormulaValue`, a tagged union
discriminated on `type`.  The declaration file of this type is not part of
the source under inspection, so its constructor list is taken from the
`switch` arms of `evalcond`, plus:
the constructor `unset`, modelled from the spec: the sentinel "unset" kind
whose `type` field is falsy, so that the gate's `if (formula.type)` test
fails on it; and
the constructor `unrecognized`, standing for every forward-compatible kind
whose tag string matches no `switch` arm (the `default` arm). -/
inductive ProhibitedNoteFormulaValue where
  | unset
  | tru
  | fls
  | and (values : List ProhibitedNoteFormulaValue)
  | or (values : List ProhibitedNoteFormulaValue)
  | not (value : ProhibitedNoteFormulaValue)
  | usernameMatchOf (pat : String)
  | nameMatchOf (pat : String)
  | nameIsDefault
  | roleAssignedOf (roleId : String)
  | hasText
  | textMatchOf (pat : String)
  | hasMentions
  | mentionCountIs (value : Int)
  | mentionCountMoreThanOrEq (value : Int)
  | mentionCountLessThan (value : Int)
  | isReply
  | isQuoted
  | hasFiles
  | fileCountIs (value : Int)
  | fileCountMoreThanOrEq (value : Int)
  | fileCountLessThan (value : Int)
  | fileTotalSizeMoreThanOrEq (size : Int)
  | fileTotalSizeLessThan (size : Int)
  | hasFileSizeMoreThanOrEq (size : Int)
  | hasFileSizeLessThan (size : Int)
  | hasFileMD5Is (hash : String)
  | hasBrowserInsafe
  | hasPictures
  | hasLikelyBlurhash (hash : String) (diff : Int)
  | hasHashtags
  | hashtagCountIs (value : Int)
  | hashtagCountMoreThanOrEq (value : Int)
  | hashtagCountLessThan (value : Int)
  | hasHashtagMatchOf (value : String)
  | unrecognized (kind : String)

/-- External capabilities used by the evaluator: the keyword matcher
`UtilityService.isKeyWordIncluded`, the perceptual-hash decoder `decode`
from the `blurhash` package (maps an encoded hash string plus target width
and height to a numeric component array and may fail), and the browser-safe
MIME allow-list `FILE_TYPE_BROWSERSAFE` (static configuration data from
`const.js`, which is not part of the source under inspection; modelled from
the spec as an opaque fixed list of type strings).  A call that raises is
an `Except.error`. -/
structure Env where
  isKeyWordIncluded : String → List String → Except Unit Bool
  decode : String → Nat → Nat → Except Unit (List Int)
  FILE_TYPE_BROWSERSAFE : List String

/-- The fold `decode(i, 5, 5).reduce((v, j, n) => v + Math.abs(j - k[n]), 0)`
from the `hasLikelyBlurhash` case: the sum of absolute componentwise
differences between the decoded file hash `d` and the decoded target hash
`k`.  When `d` has more components than `k` the JavaScript fold reads past
the end of `k`, the running total becomes `NaN`, and every subsequent
threshold comparison is false; that case is `none` here. -/
def blurReduce (d k : List Int) : Option Int :=
  if d.length ≤ k.length then some ((List.zipWith (fun j kn => |j - kn|) d k).sum)
  else none

/-- Models `Array.prototype.some` with a callback that may raise: elements
are tested left to right, the first `true` stops the scan, and a raised
failure aborts the whole scan with that failure. -/
def someExcept (f : α → Except Unit Bool) : List α → Except Unit Bool
  | [] => .ok false
  | x :: xs => match f x with
    | .error e => .error e
    | .ok true => .ok true
    | .ok false => someExcept f xs

mutual

/-- The recursive evaluator `evalcond(subject, user, roles, formula)`.  One
invocation wraps its whole `switch` in `try { ... } catch { return false }`;
child formulas are evaluated through recursive calls to `evalcond` itself,
so every recursive step carries its own catch boundary.  `evalStep` is the
body of the `try` block. -/
def evalcond (env : Env) (subject : InspectionSubject) (user : MiUser)
    (roles : List MiRole) (formula : ProhibitedNoteFormulaValue) : Bool :=
  match evalStep env subject user roles formula with
  | .ok b => b
  | .error _ => false
termination_by (sizeOf formula, 1)

/-- The body of the `try` block of `evalcond`: the `switch` on
`formula.type`.  The `default` arm covers the `unrecognized` constructor
and the sentinel `unset` kind, whose falsy tag string matches no case. -/
def evalStep (env : Env) (subject : InspectionSubject) (user : MiUser)
    (roles : List MiRole) : ProhibitedNoteFormulaValue → Except Unit Bool
  | .tru => .ok true
  | .fls => .ok false
  | .and values => .ok (evalEvery env subject user roles values)
  | .or values => .ok (evalSome env subject user roles values)
  | .not value => .ok (!evalcond env subject user roles value)
  | .usernameMatchOf pat => env.isKeyWordIncluded user.username [pat]
  | .nameMatchOf pat => env.isKeyWordIncluded (user.name.getD "") [pat]
  | .nameIsDefault => .ok (match user.name with
      | some n => if n = "" then true else n == user.username
      | none => true)
  | .roleAssignedOf roleId => .ok (roles.any fun r => r.id == roleId)
  | .hasText => .ok subject.text.isSome
  | .textMatchOf pat => env.isKeyWordIncluded (subject.text.getD "") [pat]
  | .hasMentions => .ok (if subject.reply.isSome then true
      else decide (subject.mentions.length > 0))
  | .mentionCountIs value => .ok ((subject.mentions.length : Int) == value)
  | .mentionCountMoreThanOrEq value => .ok (decide ((subject.mentions.length : Int) ≥ value))
  | .mentionCountLessThan value => .ok (decide ((subject.mentions.length : Int) < value))
  | .isReply => .ok subject.reply.isSome
  | .isQuoted => .ok subject.renote.isSome
  | .hasFiles => .ok (match subject.files with
      | some files => decide (files.length > 0)
      | none => false)
  | .fileCountIs value => .ok (((subject.files.getD []).length : Int) == value)
  | .fileCountMoreThanOrEq value => .ok (decide (((subject.files.getD []).length : Int) ≥ value))
  | .fileCountLessThan value => .ok (decide (((subject.files.getD []).length : Int) < value))
  | .fileTotalSizeMoreThanOrEq size =>
      .ok (decide ((subject.files.getD []).foldl (fun p f => p + f.size) 0 ≥ size))
  | .fileTotalSizeLessThan size =>
      .ok (decide ((subject.files.getD []).foldl (fun p f => p + f.size) 0 < size))
  | .hasFileSizeMoreThanOrEq size => .ok (match subject.files with
      | some files => files.any fun f => decide (f.size ≥ size)
      | none => false)
  | .hasFileSizeLessThan size => .ok (match subject.files with
      | some files => files.any fun f => decide (f.size < size)
      | none => true)
  | .hasFileMD5Is hash => .ok (match subject.files with
      | some files => files.any fun f => f.md5 == hash
      | none => false)
  | .hasBrowserInsafe => .ok (match subject.files with
      | some files => files.any fun f => !(env.FILE_TYPE_BROWSERSAFE.any fun t => f.type == t)
      | none => false)
  | .hasPictures => .ok (match subject.files with
      | some files => files.any fun f => f.type.startsWith "image/"
      | none => false)
  | .hasLikelyBlurhash hash diff => .ok (match env.decode hash 5 5 with
      | .ok k =>
        (((subject.files.getD []).filter fun f => f.blurhash.isSome).map
            fun f => f.blurhash.getD "").any fun i =>
          match env.decode i 5 5 with
          | .ok d => match blurReduce d k with
            | some v => decide (v ≤ diff)
            | none => false
          | .error _ => false
      | .error _ => false)
  | .hasHashtags => .ok (decide (subject.hashtags.length > 0))
  | .hashtagCountIs value => .ok ((subject.hashtags.length : Int) == value)
  | .hashtagCountMoreThanOrEq value => .ok (decide ((subject.hashtags.length : Int) ≥ value))
  | .hashtagCountLessThan value => .ok (decide ((subject.hashtags.length : Int) < value))
  | .hasHashtagMatchOf value =>
      someExcept (fun h => env.isKeyWordIncluded h [value]) subject.hashtags
  | .unset => .ok false
  | .unrecognized _ => .ok false
termination_by f => (sizeOf f, 0)

/-- `formula.values.every(v => this.evalcond(subject, user, roles, v))`:
children left to right, short-circuiting on the first false child. -/
def evalEvery (env : Env) (subject : InspectionSubject) (user : MiUser)
    (roles : List MiRole) : List ProhibitedNoteFormulaValue → Bool
  | [] => true
  | v :: vs => evalcond env subject user roles v && evalEvery env subject user roles vs
termination_by l => (sizeOf l, 0)

/-- `formula.values.some(v => this.evalcond(subject, user, roles, v))`:
children left to right, short-circuiting on the first true child. -/
def evalSome (env : Env) (subject : InspectionSubject) (user : MiUser)
    (roles : List MiRole) : List ProhibitedNoteFormulaValue → Bool
  | [] => false
  | v :: vs => evalcond env subject user roles v || evalSome env subject user roles vs
termination_by l => (sizeOf l, 0)

end

/-- The truthiness test `if (formula.type)` performed by the gate: every
recognized kind and every forward-compatible kind carries a non-empty tag
string, while the sentinel `unset` kind (modelled from the spec: the
configuration value that carries no formula) has a falsy one. -/
def ProhibitedNoteFormulaValue.typeTruthy : ProhibitedNoteFormulaValue → Bool
  | .unset => false
  | _ => true

/-- The collaborators of the gate `isProhibitedNote`: the configuration
fetch `(await metaService.fetch()).prohibitedNotePattern`, the user lookup
`cacheService.findUserById`, the role lookup `roleService.getUserRoles`,
and the evaluator's capability environment.  Each asynchronous collaborator
call may fail, and such a failure propagates to the gate's caller. -/
structure GateEnv where
  fetchMeta : Except Unit ProhibitedNoteFormulaValue
  findUserById : String → Except Unit MiUser
  getUserRoles : String → Except Unit (List MiRole)
  env : Env

/-- The gate `isProhibitedNote(subject)`: fetches the configured formula;
when `formula.type` is falsy it returns `false` at once, otherwise it
resolves the author's user record and role set and delegates to
`evalcond`.  Collaborator failures propagate unmodified. -/
def isProhibitedNote (g : GateEnv) (subject : InspectionSubject) : Except Unit Bool := do
  let formula ← g.fetchMeta
  if formula.typeTruthy then
    let user ← g.findUserById subject.userId
    let roles ← g.getUserRoles subject.userId
    pure (evalcond g.env subject user roles formula)
  else
    pure false

/-- Labels for the gate's collaborator invocations. -/
inductive GateCall where
  | fetchMeta
  | findUserById
  | getUserRoles
deriving DecidableEq, Repr

/-- Instrumented copy of `isProhibitedNote` that also records, in order,
which collaborators were invoked during the call. -/
def isProhibitedNoteTraced (g : GateEnv) (subject : InspectionSubject) :
    Except Unit Bool × List GateCall :=
  match g.fetchMeta with
  | .error e => (.error e, [.fetchMeta])
  | .ok formula =>
    if formula.typeTruthy then
      match g.findUserById subject.userId with
      | .error e => (.error e, [.fetchMeta, .findUserById])
      | .ok user =>
        match g.getUserRoles subject.userId with
        | .error e => (.error e, [.fetchMeta, .findUserById, .getUserRoles])
        | .ok roles =>
          (.ok (evalcond g.env subject user roles formula),
           [.fetchMeta, .findUserById, .getUserRoles])
    else
      (.ok false, [.fetchMeta])

/-- Computation rule for the `Except` monad: binding a success applies the
continuation. -/
theorem exceptBind_ok (a : α) (f : α → Except ε β) : (Except.ok a >>= f) = f a := rfl

/-- Computation rule for the `Except` monad: binding a failure propagates
the failure. -/
theorem exceptBind_error (e : ε) (f : α → Except ε β) :
    ((Except.error e : Except ε α) >>= f) = Except.error e := rfl

/-- Computation rule for `pure` in the `Except` monad. -/
theorem exceptPure (a : α) : (pure a : Except ε α) = .ok a := rfl

/-- Computation rule for mapping over a successful `Except` value. -/
theorem exceptMap_ok (f : α → β) (a : α) :
    (f <$> (Except.ok a : Except ε α)) = .ok (f a) := rfl

/-- Computation rule for mapping over a failed `Except` value. -/
theorem exceptMap_error (f : α → β) (e : ε) :
    (f <$> (Except.error e : Except ε α)) = .error e := rfl

/-- The instrumentation changes nothing about the returned value. -/
theorem isProhibitedNoteTraced_fst (g : GateEnv) (subject : InspectionSubject) :
    (isProhibitedNoteTraced g subject).1 = isProhibitedNote g subject := by
  cases hm : g.fetchMeta with
  | error e =>
    simp [isProhibitedNote, isProhibitedNoteTraced, hm, exceptBind_error]
  | ok formula =>
    cases h : formula.typeTruthy with
    | false =>
      simp [isProhibitedNote, isProhibitedNoteTraced, hm, h, exceptBind_ok, exceptPure]
    | true =>
      cases hu : g.findUserById subject.userId with
      | error e =>
        simp [isProhibitedNote, isProhibitedNoteTraced, hm, h, hu,
          exceptBind_ok, exceptBind_error]
      | ok user =>
        cases hr : g.getUserRoles subject.userId with
        | error e =>
          simp [isProhibitedNote, isProhibitedNoteTraced, hm, h, hu, hr,
            exceptBind_ok, exceptBind_error, exceptMap_error]
        | ok roles =>
          simp [isProhibitedNote, isProhibitedNoteTraced, hm, h, hu, hr,
            exceptBind_ok, exceptMap_ok]

/-- Capability environment in which every collaborator call raises: the
keyword matcher and the perceptual-hash decoder always fail. -/
def badEnv : Env := ⟨fun _ _ => .error (), fun _ _ _ => .error (), []⟩

/-- A concrete subject with no attached-file list (`files` is null). -/
def subj0 : InspectionSubject := ⟨"u1", none, none, none, none, [], []⟩

/-- A concrete subject whose attached-file list is present but empty. -/
def subjEmptyFiles : InspectionSubject := ⟨"u1", none, none, none, some [], [], []⟩

/-- A concrete user record with no display name. -/
def user0 : MiUser := ⟨"alice", none⟩

/-- A concrete user record whose display name is the empty string and whose
handle differs from it. -/
def userEmptyName : MiUser := ⟨"bob", some ""⟩

/-- A gate environment whose configuration carries no formula and whose
user and role lookups always fail, so that any attempt to consult them
would surface as an error. -/
def gateUnset : GateEnv := ⟨.ok .unset, fun _ => .error (), fun _ => .error (), badEnv⟩

/-- A gate environment configured with the constant `true` formula, with
succeeding lookups but an evaluator environment whose leaf collaborators
always raise. -/
def gateTrue : GateEnv := ⟨.ok .tru, fun _ => .ok user0, fun _ => .ok [], badEnv⟩

/-- C1 counterexample: the formula `usernameMatchOf "x"` evaluated under an
environment whose keyword matcher raises is a formula whose evaluation
raises (the body of the `try` block returns an error), yet
`evalcond` on `not` of it returns `true`, not `false`, and `evalcond` on
`or` of it with the constant `true` also returns `true`, not `false`: the
failure is caught at the raising node's own recursive step, not once at the
entry point. -/
theorem C1_counterexample :
    evalStep badEnv subj0 user0 [] (.usernameMatchOf "x") = .error () ∧
    evalcond badEnv subj0 user0 [] (.not (.usernameMatchOf "x")) = true ∧
    evalcond badEnv subj0 user0 [] (.or [.usernameMatchOf "x", .tru]) = true := by
  refine ⟨?_, ?_, ?_⟩ <;> simp [evalcond, evalStep, evalSome, badEnv]

/-- C1 (amended): the failure boundary of the evaluator is fine-grained:
every recursive call to `evalcond` wraps its own `switch` in the
try/catch, so a formula `f` whose evaluation raises yields `false` at the
raising node's own frame, and enclosing structural nodes combine that
`false` normally: `evalcond` on `not f` returns `true` and `evalcond` on
`or [f, true]` returns `true`; no error ever propagates out of any
`evalcond` frame. -/
theorem C1_per_call_boundary (env : Env) (subject : InspectionSubject)
    (user : MiUser) (roles : List MiRole) (f : ProhibitedNoteFormulaValue) (e : Unit)
    (h : evalStep env subject user roles f = .error e) :
    evalcond env subject user roles f = false ∧
    evalcond env subject user roles (.not f) = true ∧
    evalcond env subject user roles (.or [f, .tru]) = true := by
  refine ⟨?_, ?_, ?_⟩ <;> simp [evalcond, evalStep, evalSome, h]

/-- C1 witness: the amended statement evaluated at the counterexample
input. -/
theorem C1_per_call_boundary_witness :
    evalcond badEnv subj0 user0 [] (.usernameMatchOf "x") = false ∧
    evalcond badEnv subj0 user0 [] (.not (.usernameMatchOf "x")) = true ∧
    evalcond badEnv subj0 user0 [] (.or [.usernameMatchOf "x", .tru]) = true :=
  C1_per_call_boundary badEnv subj0 user0 [] (.usernameMatchOf "x") ()
    (by simp [evalStep, badEnv])

/-- C2: Negation law: for every environment, subject, user record, role set
and formula `f` (including formulas whose evaluation raises internally),
`evalcond` on `not f` equals the boolean negation of `evalcond` on `f`. -/
theorem C2_negation_law (env : Env) (subject : InspectionSubject)
    (user : MiUser) (roles : List MiRole) (f : ProhibitedNoteFormulaValue) :
    evalcond env subject user roles (.not f) = !evalcond env subject user roles f := by
  simp [evalcond, evalStep]

/-- C3: Gate fast path: when the fetched configuration carries no formula
(the sentinel `unset` kind), `isProhibitedNote` returns `false` at once,
and the call trace records only the configuration fetch: the user-lookup
and role-lookup collaborators are never invoked. -/
theorem C3_gate_fast_path (g : GateEnv) (subject : InspectionSubject)
    (h : g.fetchMeta = .ok .unset) :
    isProhibitedNote g subject = .ok false ∧
    isProhibitedNoteTraced g subject = (.ok false, [.fetchMeta]) := by
  constructor
  · simp [isProhibitedNote, h, exceptBind_ok, exceptPure,
      ProhibitedNoteFormulaValue.typeTruthy]
  · simp [isProhibitedNoteTraced, h, ProhibitedNoteFormulaValue.typeTruthy]

/-- C3 witness: the fast path evaluated on a gate whose lookups always
fail, so that any consultation of them would have surfaced as an error. -/
theorem C3_gate_fast_path_witness :
    isProhibitedNote gateUnset subj0 = .ok false ∧
    isProhibitedNoteTraced gateUnset subj0 = (.ok false, [.fetchMeta]) :=
  C3_gate_fast_path gateUnset subj0 rfl

/-- C4: Asymmetric no-files defaults: on a subject whose attached-file list
is absent, `hasFileSizeLessThan` evaluates to `true` while
`hasFileSizeMoreThanOrEq` evaluates to `false`, for every threshold. -/
theorem C4_no_files_asymmetric_defaults (env : Env) (subject : InspectionSubject)
    (user : MiUser) (roles : List MiRole) (threshold : Int)
    (h : subject.files = none) :
    evalcond env subject user roles (.hasFileSizeLessThan threshold) = true ∧
    evalcond env subject user roles (.hasFileSizeMoreThanOrEq threshold) = false := by
  constructor <;> simp [evalcond, evalStep, h]

/-- C4 witness: the asymmetric defaults evaluated at a concrete subject
with no file list and threshold 100. -/
theorem C4_no_files_asymmetric_defaults_witness :
    evalcond badEnv subj0 user0 [] (.hasFileSizeLessThan 100) = true ∧
    evalcond badEnv subj0 user0 [] (.hasFileSizeMoreThanOrEq 100) = false :=
  C4_no_files_asymmetric_defaults badEnv subj0 user0 [] 100 rfl

/-- C5: Empty-list identity laws: `evalcond` on `and []` returns `true` and
`evalcond` on `or []` returns `false`, for every environment, subject, user
record and role set. -/
theorem C5_empty_list_identities (env : Env) (subject : InspectionSubject)
    (user : MiUser) (roles : List MiRole) :
    evalcond env subject user roles (.and []) = true ∧
    evalcond env subject user roles (.or []) = false := by
  constructor <;> simp [evalcond, evalStep, evalEvery, evalSome]

/-- C6: Forward compatibility: a leaf node whose kind is not one of the
recognized structural or predicate kinds evaluates to `false`, and even the
un-caught body of the evaluator returns it without raising. -/
theorem C6_unrecognized_kind_false (env : Env) (subject : InspectionSubject)
    (user : MiUser) (roles : List MiRole) (kind : String) :
    evalcond env subject user roles (.unrecognized kind) = false ∧
    evalStep env subject user roles (.unrecognized kind) = .ok false := by
  constructor <;> simp [evalcond, evalStep]

/-- C7: Nested failure handling of `hasLikelyBlurhash`: the leaf evaluates
to `true` iff the target hash decodes successfully to a component array `k`
and some attached file carries a perceptual-hash string that decodes
successfully to an array whose summed absolute per-component difference
against `k` is defined and at most the threshold.  A decoding failure of
the target hash makes the whole predicate `false` (no witness `k`); a
decoding failure of an individual file's hash merely disqualifies that file
as a witness while the other files still count. -/
theorem C7_hasLikelyBlurhash_characterization (env : Env)
    (subject : InspectionSubject) (user : MiUser) (roles : List MiRole)
    (hash : String) (diff : Int) :
    evalcond env subject user roles (.hasLikelyBlurhash hash diff) = true ↔
      ∃ k, env.decode hash 5 5 = .ok k ∧
        ∃ f ∈ subject.files.getD [], ∃ bh, f.blurhash = some bh ∧
          ∃ d, env.decode bh 5 5 = .ok d ∧
            ∃ v, blurReduce d k = some v ∧ v ≤ diff := by
  rw [evalcond]
  cases hk : env.decode hash 5 5 with
  | error e =>
    simp [evalStep, hk]
  | ok k =>
    simp only [evalStep, hk]
    rw [List.any_eq_true]
    simp only [List.mem_map, List.mem_filter, Except.ok.injEq, exists_eq_left']
    constructor
    · rintro ⟨x, ⟨a, ⟨haL, hsome⟩, hx⟩, hM⟩
      obtain ⟨bh, hbh⟩ := Option.isSome_iff_exists.mp hsome
      rw [hbh] at hx
      simp only [Option.getD_some] at hx
      subst hx
      revert hM
      cases hd : env.decode bh 5 5 with
      | error e => simp
      | ok d =>
        cases hv : blurReduce d k with
        | none => simp [hv]
        | some v =>
          simp only [hv, decide_eq_true_eq]
          intro hvd
          exact ⟨a, haL, bh, hbh, d, hd, v, hv, hvd⟩
    · rintro ⟨f, hfL, bh, hbh, d, hd, v, hv, hvd⟩
      refine ⟨bh, ⟨f, ⟨hfL, by simp [hbh]⟩, by simp [hbh]⟩, ?_⟩
      simp [hd, hv, hvd]

/-- C8: Totality of the Evaluator: whenever the gate's own collaborators
(configuration fetch, user lookup, role lookup) succeed, `isProhibitedNote`
returns `.ok` of a boolean — the one computed by the total function
`evalcond` — for every evaluator environment, including environments whose
leaf-predicate collaborators or decode steps always raise; and every error
a caller can observe originates from one of the gate's collaborator
lookups, never from the Evaluator's internals. -/
theorem C8_evaluator_totality (g : GateEnv) (subject : InspectionSubject) :
    (∀ f user roles, g.fetchMeta = .ok f →
        g.findUserById subject.userId = .ok user →
        g.getUserRoles subject.userId = .ok roles →
        isProhibitedNote g subject =
          .ok (if f.typeTruthy then evalcond g.env subject user roles f else false)) ∧
    (∀ e, isProhibitedNote g subject = .error e →
        g.fetchMeta = .error e ∨ g.findUserById subject.userId = .error e ∨
        g.getUserRoles subject.userId = .error e) := by
  constructor
  · intro f user roles hm hu hr
    cases h : f.typeTruthy with
    | false => simp [isProhibitedNote, hm, h, exceptBind_ok, exceptPure]
    | true =>
      simp [isProhibitedNote, hm, hu, hr, h, exceptBind_ok, exceptMap_ok, exceptPure]
  · intro e he
    cases hm : g.fetchMeta with
    | error e2 =>
      cases e; cases e2; exact Or.inl rfl
    | ok f =>
      simp only [isProhibitedNote, hm, exceptBind_ok] at he
      cases h : f.typeTruthy with
      | false => simp [h, exceptPure] at he
      | true =>
        simp only [h, if_true] at he
        cases hu : g.findUserById subject.userId with
        | error e2 =>
          cases e; cases e2; exact Or.inr (Or.inl rfl)
        | ok user =>
          simp only [hu, exceptBind_ok] at he
          cases hr : g.getUserRoles subject.userId with
          | error e2 =>
            cases e; cases e2; exact Or.inr (Or.inr rfl)
          | ok roles =>
            simp [hr, exceptMap_ok] at he

/-- C8 witness: a gate configured with the constant `true` formula and
succeeding lookups, whose evaluator environment nonetheless has every leaf
collaborator raise, returns `.ok true` rather than an error. -/
theorem C8_evaluator_totality_witness :
    isProhibitedNote gateTrue subj0 = .ok true := by
  have h := (C8_evaluator_totality gateTrue subj0).1 .tru user0 [] rfl rfl rfl
  simpa [gateTrue, evalcond, evalStep, ProhibitedNoteFormulaValue.typeTruthy] using h

/-- C9: The no-files default of `hasFileSizeLessThan` applies only when the
file list is absent: on a subject whose file list is present but empty, the
leaf evaluates to `false` for every threshold, not to the `true` default. -/
theorem C9_empty_file_list_no_default (env : Env) (subject : InspectionSubject)
    (user : MiUser) (roles : List MiRole) (threshold : Int)
    (h : subject.files = some []) :
    evalcond env subject user roles (.hasFileSizeLessThan threshold) = false := by
  simp [evalcond, evalStep, h]

/-- C9 witness: the empty-but-present file list evaluated at threshold
100. -/
theorem C9_empty_file_list_no_default_witness :
    evalcond badEnv subjEmptyFiles user0 [] (.hasFileSizeLessThan 100) = false :=
  C9_empty_file_list_no_default badEnv subjEmptyFiles user0 [] 100 rfl

/-- C10: A display name equal to the empty string is treated as unset by
`nameIsDefault`: the leaf evaluates to `true` regardless of the user's
handle, because the handle-equality comparison runs only for a truthy
(non-empty, non-null) display name. -/
theorem C10_nameIsDefault_empty_name (env : Env) (subject : InspectionSubject)
    (user : MiUser) (roles : List MiRole)
    (h : user.name = some "") :
    evalcond env subject user roles .nameIsDefault = true := by
  simp [evalcond, evalStep, h]

/-- C10 witness: a user whose display name is the empty string and whose
handle is distinct from it still gets `nameIsDefault = true`. -/
theorem C10_nameIsDefault_empty_name_witness :
    evalcond badEnv subj0 userEmptyName [] .nameIsDefault = true :=
  C10_nameIsDefault_empty_name badEnv subj0 userEmptyName [] rfl
